import Mathlib

/-
Verification of the cocotb handle layer (src/cocotb/handle.py) against its
specification.  The Python module is shallowly embedded: the opaque GPI
simulator is modelled as a record of pure query functions (`Design`), proxy
objects become an immutable `Proxy` record (identity is the handle; mutable
per-object dictionaries such as `_sub_handles` are threaded explicitly as
state), the global `_handle2obj` singleton dictionary is an association list
threaded through the factory, and Python exceptions become explicit `PyErr`
results.  Machine integers are modelled as `Int`/`Nat`; `BinaryValue` is
modelled by the pair (integer value, bit width) it denotes, since only its
construction arguments matter to the properties below.
-/

set_option autoImplicit false

namespace CocotbHandle

/- Simulator type-tag constants.  The concrete numeric values of the C
extension module are opaque; we fix arbitrary distinct naturals. -/

def MODULE : Nat := 0

def STRUCTURE : Nat := 1

def REG : Nat := 2

def NET : Nat := 3

def NETARRAY : Nat := 4

def REAL : Nat := 5

def INTEGER : Nat := 6

def ENUM : Nat := 7

def STRING : Nat := 8

def GENARRAY : Nat := 9

/- Python exceptions raised by handle.py, with the data their messages carry.
`testError` models cocotb.result.TestError raised by the SimHandle factory;
it carries the GPI type tag and the path argument, as in the message
string of handle.py line 871. -/

inductive PyErr where
  | attributeError (selfName : String) (name : String)
  | indexError (msg : String)
  | typeError (msg : String)
  | valueError (msg : String)
  | testError (tag : Nat) (path : Option String)
  deriving DecidableEq, Repr

/- The Python class chosen by the SimHandle factory for a proxy. -/

inductive PClass where
  | HierarchyObject
  | HierarchyArrayObject
  | ModifiableObject
  | NonHierarchyIndexableObject
  | RealObject
  | IntegerObject
  | EnumObject
  | StringObject
  | ConstantObject
  deriving DecidableEq, Repr

/- The snapshot stored in ConstantObject._value.  INTEGER/ENUM handles store
the long value, REAL the real value (payload modelled as Int, no float
arithmetic is performed on it), STRING the string, and anything else the
binary string (the BinaryValue parse fallback of handle.py lines 444-449
is flattened to carrying the raw binstr, which determines the value). -/

inductive ConstVal where
  | cint (v : Int)
  | creal (v : Int)
  | cstr (s : String)
  | cbin (binstr : String)
  deriving DecidableEq, Repr

/- A proxy object as created by SimHandle.  Identity-relevant immutable
attributes only; the mutable dictionaries (_sub_handles,
_invalid_sub_handles, _discovered) are threaded separately as `HierState`,
mirroring Python object attributes mutated in place.  The fields _fullname,
_def_name, _def_file, _len and the logger are omitted: no claim mentions
them. -/

structure Proxy where
  handle : Nat
  cls : PClass
  name : String
  path : String
  constValue : Option ConstVal
  deriving DecidableEq, Repr

/- SimHandleBase.__eq__ between two proxies (both sides SimHandleBase):
compares the underlying GPI handles. -/

def proxyEq (a b : Proxy) : Bool :=
  a.handle == b.handle

/- The global _handle2obj dictionary (handle.py line 823), as an association
list; insertion conses at the head, so `List.lookup` sees the newest
binding first, matching dict overwrite semantics. -/

abbrev Cache := List (Nat × Proxy)

/- The native simulation interface consumed by handle.py, modelled as a
record of pure functions of the opaque handle (the elaborated design is
static, so every query is a pure lookup). -/

structure Design where
  getType : Nat → Nat
  getConst : Nat → Bool
  getNameString : Nat → String
  getHandleByName : Nat → String → Option Nat
  getHandleByIndex : Nat → Int → Option Nat
  iterate : Nat → List Nat
  getSignalValLong : Nat → Int
  getSignalValReal : Nat → Int
  getSignalValStr : Nat → String
  getSignalValBinstr : Nat → String

/- SimHandleBase.__init__: _path is the name when the path argument is None,
else the path argument. -/

def pathResolve (name : String) (path : Option String) : String :=
  match path with
  | none => name
  | some p => p

/- ConstantObject.__init__: the one-time snapshot read, dispatched on the
handle type tag. -/

def constantValueOf (d : Design) (handle : Nat) (handleType : Nat) : ConstVal :=
  if handleType == INTEGER || handleType == ENUM then
    ConstVal.cint (d.getSignalValLong handle)
  else if handleType == REAL then
    ConstVal.creal (d.getSignalValReal handle)
  else if handleType == STRING then
    ConstVal.cstr (d.getSignalValStr handle)
  else
    ConstVal.cbin (d.getSignalValBinstr handle)

/- The _type2cls dictionary of the SimHandle factory (handle.py 838-849). -/

def type2cls (t : Nat) : Option PClass :=
  if t == MODULE then some PClass.HierarchyObject
  else if t == STRUCTURE then some PClass.HierarchyObject
  else if t == REG then some PClass.ModifiableObject
  else if t == NET then some PClass.ModifiableObject
  else if t == NETARRAY then some PClass.NonHierarchyIndexableObject
  else if t == REAL then some PClass.RealObject
  else if t == INTEGER then some PClass.IntegerObject
  else if t == ENUM then some PClass.EnumObject
  else if t == STRING then some PClass.StringObject
  else if t == GENARRAY then some PClass.HierarchyArrayObject
  else none

/- The SimHandle factory function (handle.py 825-874).  Checks the
_handle2obj cache first (path ignored on a hit); otherwise special-cases
constant non-region handles into ConstantObject, then dispatches on
_type2cls, raising TestError for an unmapped tag; every freshly built
proxy is registered in the cache before being returned. -/

def SimHandle (d : Design) (handle : Nat) (path : Option String) (cache : Cache) :
    Except PyErr (Proxy × Cache) :=
  match List.lookup handle cache with
  | some obj => Except.ok (obj, cache)
  | none =>
    let t := d.getType handle
    if d.getConst handle && !([ MODULE, STRUCTURE, NETARRAY, GENARRAY].contains t) then
      let obj : Proxy :=
        ⟨handle, PClass.ConstantObject, d.getNameString handle,
          pathResolve (d.getNameString handle) path, some (constantValueOf d handle t)⟩
      Except.ok (obj, (handle, obj) :: cache)
    else
      match type2cls t with
      | none => Except.error (PyErr.testError t path)
      | some cls =>
        let obj : Proxy :=
          ⟨handle, cls, d.getNameString handle,
            pathResolve (d.getNameString handle) path, none⟩
        Except.ok (obj, (handle, obj) :: cache)

/- Mutable per-object state of a region/hierarchy proxy: the _sub_handles
dictionary, the _invalid_sub_handles negative cache (keys only; the Python
dict stores None values) and the RegionObject._discovered flag. -/

structure HierState where
  subHandles : List (String × Proxy)
  invalidSubHandles : List String
  discovered : Bool
  deriving DecidableEq, Repr

def emptyHierState : HierState :=
  HierState.mk [] [] false

/- SimHandleBase._compat_mapping (handle.py 62-66). -/

def compatMapping : List (String × String) :=
  [("log", "_log"), ("fullname", "_fullname"), ("name", "_name")]

def compatKeys : List String :=
  compatMapping.map Prod.fst

/- RegionObject._child_path. -/

def childPath (selfPath : String) (name : String) : String :=
  selfPath ++ "." ++ name

/- Python name.startswith applied to the one-character prefix underscore:
true exactly when the first character is an underscore. -/

def pyStartsWithUnderscore (name : String) : Bool :=
  match name.data with
  | [] => false
  | ch :: _ => ch == '_'

/- RegionObject._sub_handle_key: the last dot-separated segment of the
native name (Python name.split on the dot and index -1): the characters
after the last dot, or the whole name when it has no dot. -/

def lastSegGo : List Char → List Char → List Char
  | [], acc => acc.reverse
  | c :: cs, acc => if c == '.' then lastSegGo cs [] else lastSegGo cs (c :: acc)

def subHandleKey (name : String) : String :=
  String.mk (lastSegGo name.data [])

/- Result of HierarchyObject.__getattr__: a resolved child, a fallback into
SimHandleBase.__getattr__ (underscore names and _compat_mapping names,
whose behaviour is outside the hierarchy contract), or a raised
exception (AttributeError, or a TestError propagating out of the
SimHandle call). -/

inductive GetattrRes where
  | found (p : Proxy)
  | baseAttr
  | raised (e : PyErr)
  deriving DecidableEq, Repr

/- Outcome of one __getattr__ or _id call: the result together with the
updated object state, the updated global cache, and the running count of
simulator.get_handle_by_name calls issued (the native-query counter the
negative-cache claims are about). -/

structure AttrOutcome where
  res : GetattrRes
  st : HierState
  cache : Cache
  queries : Nat
  deriving DecidableEq, Repr

/- HierarchyObject.__getattr__ (handle.py 247-268): _sub_handles first, then
the underscore fallback, then one native get_handle_by_name query; on a
miss there is no negative caching and an AttributeError is raised (after
the _compat_mapping fallback); on a hit the child is resolved through
SimHandle and cached under the name. -/

def getattrH (d : Design) (selfHandle : Nat) (selfName selfPath name : String)
    (st : HierState) (cache : Cache) (queries : Nat) : AttrOutcome :=
  match List.lookup name st.subHandles with
  | some p => AttrOutcome.mk (GetattrRes.found p) st cache queries
  | none =>
    if pyStartsWithUnderscore name then
      AttrOutcome.mk GetattrRes.baseAttr st cache queries
    else
      match d.getHandleByName selfHandle name with
      | none =>
        if compatKeys.contains name then
          AttrOutcome.mk GetattrRes.baseAttr st cache (queries + 1)
        else
          AttrOutcome.mk (GetattrRes.raised (PyErr.attributeError selfName name)) st cache
            (queries + 1)
      | some newHandle =>
        match SimHandle d newHandle (some (childPath selfPath name)) cache with
        | Except.error e => AttrOutcome.mk (GetattrRes.raised e) st cache (queries + 1)
        | Except.ok (p, cache2) =>
          AttrOutcome.mk (GetattrRes.found p)
            (HierState.mk ((name, p) :: st.subHandles) st.invalidSubHandles st.discovered)
            cache2 (queries + 1)

/- Result of HierarchyObject.__hasattr__: the cached proxy, None, the raw
truthy native handle, or a propagated TestError from SimHandle. -/

inductive HasattrRes where
  | cachedObj (p : Proxy)
  | noneRes
  | rawHandle (h : Nat)
  | raised (e : PyErr)
  deriving DecidableEq, Repr

structure HasOutcome where
  res : HasattrRes
  st : HierState
  cache : Cache
  queries : Nat
  deriving DecidableEq, Repr

/- HierarchyObject.__hasattr__ (handle.py 270-289): the peek lookup.
Consults _sub_handles, then the _invalid_sub_handles negative cache; only
then issues the single native query, caching the child on success and
recording a negative entry on failure; reports absence by returning None
rather than raising. -/

def hasattrH (d : Design) (selfHandle : Nat) (selfPath name : String)
    (st : HierState) (cache : Cache) (queries : Nat) : HasOutcome :=
  match List.lookup name st.subHandles with
  | some p => HasOutcome.mk (HasattrRes.cachedObj p) st cache queries
  | none =>
    if st.invalidSubHandles.contains name then
      HasOutcome.mk HasattrRes.noneRes st cache queries
    else
      match d.getHandleByName selfHandle name with
      | some newHandle =>
        match SimHandle d newHandle (some (childPath selfPath name)) cache with
        | Except.error e => HasOutcome.mk (HasattrRes.raised e) st cache (queries + 1)
        | Except.ok (p, cache2) =>
          HasOutcome.mk (HasattrRes.rawHandle newHandle)
            (HierState.mk ((name, p) :: st.subHandles) st.invalidSubHandles st.discovered)
            cache2 (queries + 1)
      | none =>
        HasOutcome.mk HasattrRes.noneRes
          (HierState.mk st.subHandles (name :: st.invalidSubHandles) st.discovered)
          cache (queries + 1)

/- HierarchyObject._id (handle.py 291-301): peek via __hasattr__, then fetch
via getattr (which lands in __getattr__, finding the entry __hasattr__
just cached); raises AttributeError when the peek reports absence.  With
extended identifiers the name is wrapped in backslashes first. -/

def idH (d : Design) (selfHandle : Nat) (selfName selfPath name : String) (extended : Bool)
    (st : HierState) (cache : Cache) (queries : Nat) : AttrOutcome :=
  let name2 := if extended then "\\" ++ name ++ "\\" else name
  match hasattrH d selfHandle selfPath name2 st cache queries with
  | HasOutcome.mk HasattrRes.noneRes st2 cache2 q2 =>
    AttrOutcome.mk (GetattrRes.raised (PyErr.attributeError selfName name2)) st2 cache2 q2
  | HasOutcome.mk (HasattrRes.raised e) st2 cache2 q2 =>
    AttrOutcome.mk (GetattrRes.raised e) st2 cache2 q2
  | HasOutcome.mk _ st2 cache2 q2 =>
    getattrH d selfHandle selfName selfPath name2 st2 cache2 q2

/- RegionObject._discover_all loop body (handle.py 193-207), iterating the
native child handles: each child is named, resolved through SimHandle
(a TestError - the only exception SimHandle raises - is logged and the
child skipped), keyed by _sub_handle_key and stored.  For a
HierarchyObject the key function is the last-segment translation, which
never yields None, so the None-key drop branch is unreachable here. -/

def discoverLoop (d : Design) (selfPath : String) :
    List Nat → HierState → Cache → HierState × Cache
  | [], st, cache => (st, cache)
  | thing :: rest, st, cache =>
    let name := d.getNameString thing
    match SimHandle d thing (some (childPath selfPath name)) cache with
    | Except.error _ => discoverLoop d selfPath rest st cache
    | Except.ok (hdl, cache2) =>
      discoverLoop d selfPath rest
        (HierState.mk ((subHandleKey name, hdl) :: st.subHandles) st.invalidSubHandles
          st.discovered)
        cache2

/- RegionObject._discover_all (handle.py 184-209): guarded by the
_discovered flag, runs the loop over the iterated children, then sets the
flag. -/

def discoverAll (d : Design) (selfHandle : Nat) (selfPath : String)
    (st : HierState) (cache : Cache) : HierState × Cache :=
  if st.discovered then (st, cache)
  else
    let r := discoverLoop d selfPath (d.iterate selfHandle) st cache
    (HierState.mk r.1.subHandles r.1.invalidSubHandles true, r.2)

/- Decidable equality for Except results, used to evaluate the models on
concrete inputs. -/

instance exceptDecEq {ε α : Type} [DecidableEq ε] [DecidableEq α] : DecidableEq (Except ε α)
  | Except.error e, Except.error f =>
    if h : e = f then isTrue (by rw [h]) else isFalse (by intro hc; cases hc; exact h rfl)
  | Except.error _, Except.ok _ => isFalse (by intro hc; cases hc)
  | Except.ok _, Except.error _ => isFalse (by intro hc; cases hc)
  | Except.ok a, Except.ok b =>
    if h : a = b then isTrue (by rw [h]) else isFalse (by intro hc; cases hc; exact h rfl)

/- Outcome of NonHierarchyIndexableObject.__getitem__: result plus the
updated _sub_handles index cache and global cache. -/

structure ItemOutcome where
  res : Except PyErr Proxy
  st : List (Int × Proxy)
  cache : Cache
  deriving DecidableEq, Repr

/- NonHierarchyIndexableObject.__getitem__ (handle.py 476-488); the slice
branch is not modelled (the index argument here is always a plain
integer).  rng is the _range attribute. -/

def getitemIdx (d : Design) (selfHandle : Nat) (selfFullname selfPath : String)
    (rng : Option (Int × Int)) (index : Int) (st : List (Int × Proxy)) (cache : Cache) :
    ItemOutcome :=
  match rng with
  | none =>
    ItemOutcome.mk
      (Except.error (PyErr.indexError (selfFullname ++ " is not indexable"))) st cache
  | some _ =>
    match List.lookup index st with
    | some p => ItemOutcome.mk (Except.ok p) st cache
    | none =>
      match d.getHandleByIndex selfHandle index with
      | none =>
        ItemOutcome.mk
          (Except.error (PyErr.indexError
            (selfFullname ++ " contains no object at index " ++ toString index)))
          st cache
      | some newHandle =>
        match SimHandle d newHandle
            (some (selfPath ++ "[" ++ toString index ++ "]")) cache with
        | Except.error e => ItemOutcome.mk (Except.error e) st cache
        | Except.ok (p, cache2) => ItemOutcome.mk (Except.ok p) ((index, p) :: st) cache2

/- NonHierarchyIndexableObject._range_iter (handle.py 502-510).  The two
while loops are translated with an explicit iteration count: the
descending loop runs left, left-1, ... while left >= right, i.e.
(left - right) + 1 times, the ascending one symmetrically. -/

def rangeIterDownAux : Nat → Int → List Int
  | 0, _ => []
  | Nat.succ n, left => left :: rangeIterDownAux n (left - 1)

def rangeIterUpAux : Nat → Int → List Int
  | 0, _ => []
  | Nat.succ n, left => left :: rangeIterUpAux n (left + 1)

def rangeIter (left right : Int) : List Int :=
  if left > right then rangeIterDownAux ((left - right).toNat + 1) left
  else rangeIterUpAux ((right - left).toNat + 1) left

/- A value array (NonHierarchyIndexableObject) for the bulk-access claims:
the declared _range, the native element count returned by get_num_elems
(which __len__ reports and the bulk-write length check uses), and the
per-index element values; elemVal i is none when get_handle_by_index
finds no object at i, in which case __getitem__ raises IndexError. -/

structure ValArray where
  left : Int
  right : Int
  numElems : Nat
  elemVal : Int → Option Int

/- NonHierarchyIndexableObject.value getter loop (handle.py 541-544): the
list comprehension over _range_iter; a missing index raises IndexError
(deliberately not caught, unlike __iter__). -/

def getAllValsGo (a : ValArray) : List Int → Except PyErr (List Int)
  | [] => Except.ok []
  | i :: is =>
    match a.elemVal i with
    | none =>
      Except.error (PyErr.indexError ("contains no object at index " ++ toString i))
    | some v =>
      match getAllValsGo a is with
      | Except.error e => Except.error e
      | Except.ok vs => Except.ok (v :: vs)

def getAllVals (a : ValArray) : Except PyErr (List Int) :=
  getAllValsGo a (rangeIter a.left a.right)

/- NonHierarchyIndexableObject.value setter loop (handle.py 558-559): each
visited index is resolved via __getitem__ (IndexError if absent) and its
value property assigned; the writes issued so far are collected in
order.  Running past the end of the input list raises IndexError on the
list subscript (cannot happen when the length check passed and the
native element count matches the range). -/

def setAllValsGo (a : ValArray) : List Int → List Int → List (Int × Int) × Option PyErr
  | [], _ => ([], none)
  | _ :: _, [] => ([], some (PyErr.indexError ("list index out of range")))
  | i :: is, v :: vs =>
    match a.elemVal i with
    | none =>
      ([], some (PyErr.indexError ("contains no object at index " ++ toString i)))
    | some _ =>
      let r := setAllValsGo a is vs
      ((i, v) :: r.1, r.2)

/- NonHierarchyIndexableObject.value setter (handle.py 546-559).  The input
is a Lean list, so the type-check branch (TypeError on non-list input)
cannot fire; the length check against len(self) runs before any element
is assigned.  Returns the element writes issued, in order, plus the
error if one was raised. -/

def listLenErr (vlen numElems : Nat) : PyErr :=
  PyErr.valueError ("Assigning list of length " ++ toString vlen ++
    " to object of length " ++ toString numElems)

def setAllVals (a : ValArray) (value : List Int) : List (Int × Int) × Option PyErr :=
  if value.length ≠ a.numElems then
    ([], some (listLenErr value.length a.numElems))
  else setAllValsGo a (rangeIter a.left a.right) value

/- Python values that can be handed to a value write, as far as the claims
need them: a plain int, the values/bits mapping, a BinaryValue (modelled
by the integer value and bit width it was built from; its binstr is the
binary representation of that value at that width), or any other
unsupported object (the ctypes.Structure branch is not modelled). -/

inductive PyVal where
  | pint (v : Int)
  | pdict (values : List Int) (bits : Nat)
  | pbin (value : Int) (nBits : Nat)
  | pother
  deriving DecidableEq, Repr

/- The write-intent classes Deposit/Force/Freeze/Release
(handle.py 584-612). -/

inductive SetActionKind where
  | Deposit (value : PyVal)
  | Force (value : PyVal)
  | Freeze
  | Release
  deriving DecidableEq, Repr

/- A value passed to a write: either a plain value or a _SetAction
instance. -/

inductive WriteInput where
  | plain (v : PyVal)
  | action (a : SetActionKind)
  deriving DecidableEq, Repr

/- The _as_gpi_args_for methods.  hdlValue is hdl.value as read by
Freeze._as_gpi_args_for at the moment the method runs, i.e. when the
write is issued.  The action codes are GPI_DEPOSIT = 0, GPI_FORCE = 1,
GPI_RELEASE = 2. -/

def asGpiArgsFor (a : SetActionKind) (hdlValue : PyVal) : PyVal × Nat :=
  match a with
  | SetActionKind.Deposit v => (v, 0)
  | SetActionKind.Force v => (v, 1)
  | SetActionKind.Freeze => (hdlValue, 1)
  | SetActionKind.Release => (PyVal.pint 0, 2)

/- ModifiableObject._check_for_set_action (handle.py 664-667). -/

def checkForSetAction (hdlValue : PyVal) (w : WriteInput) : PyVal × Nat :=
  match w with
  | WriteInput.plain v => (v, 0)
  | WriteInput.action a => asGpiArgsFor a hdlValue

/- The native write call issued by setimmediatevalue: either the fast
integer write set_signal_val_long, or the composite
set_signal_val_binstr, whose binstr argument is the binary
representation of the given integer at the given width. -/

inductive NativeCall where
  | setSignalValLong (action : Nat) (v : Int)
  | setSignalValBinstr (action : Nat) (value : Int) (nBits : Nat)
  deriving DecidableEq, Repr

/- The dict-branch packing loop of setimmediatevalue (handle.py 645-656):
the value list is reversed and folded with num = (num << bits) + val. -/

def packNum (values : List Int) (bits : Nat) : Int :=
  values.reverse.foldl (fun num val => num * 2 ^ bits + val) 0

/- Little-endian closed form of packNum: element at position i occupies the
bits from i*bits (least significant end) upward. -/

def packLE (values : List Int) (bits : Nat) : Int :=
  match values with
  | [] => 0
  | v :: vs => v + 2 ^ bits * packLE vs bits

/- Modelled from the spec: the most-significant-element-first packing the
specification describes for the values/bits mapping (input position 0 in
the most significant element slot), stated for comparison against the
packing the code performs. -/

def packMostSignificantFirst (values : List Int) (bits : Nat) : Int :=
  values.foldl (fun num val => num * 2 ^ bits + val) 0

/- The TypeError message of the dict branch when the packed width does not
match the target width (handle.py 651-652). -/

def dictLenErr (values : List Int) (bits selfLen : Nat) : PyErr :=
  PyErr.typeError ("Unable to set with array length " ++ toString values.length ++
    " of " ++ toString bits ++ " bit entries = " ++ toString (values.length * bits) ++
    " total, target is only " ++ toString selfLen ++ " bits long")

/- ModifiableObject.setimmediatevalue (handle.py 617-662).  selfLen is
len(self) (the bit width); hdlValue is the current value hdl.value would
read, consumed only by a Freeze intent.  Returns the native call made or
the TypeError raised.  The ctypes.Structure branch is not modelled
(PyVal has no constructor for it); BinaryValue construction is modelled
by carrying (value, width). -/

def setimmediatevalueM (selfLen : Nat) (hdlValue : PyVal) (w : WriteInput) :
    Except PyErr NativeCall :=
  let va := checkForSetAction hdlValue w
  match va.1 with
  | PyVal.pint v =>
    if v < 0x7fffffff ∧ selfLen ≤ 32 then
      Except.ok (NativeCall.setSignalValLong va.2 v)
    else
      Except.ok (NativeCall.setSignalValBinstr va.2 v selfLen)
  | PyVal.pdict values bits =>
    if values.length * bits ≠ selfLen then
      Except.error (dictLenErr values bits selfLen)
    else
      Except.ok (NativeCall.setSignalValBinstr va.2 (packNum values bits) selfLen)
  | PyVal.pbin v n => Except.ok (NativeCall.setSignalValBinstr va.2 v n)
  | PyVal.pother =>
    Except.error (PyErr.typeError ("Unable to set simulator value with type"))

/- ConstantObject: the value getter returns the _value snapshot
(handle.py 457-460); setimmediatevalue and the value setter are inherited
unchanged from NonHierarchyObject (handle.py 384-389; the
ConstantObject property overrides only the getter), so both raise
TypeError without touching the snapshot.  Each write operation returns
the (unchanged) snapshot state together with the raised error. -/

def constantObjectValueGet (snapshot : ConstVal) : ConstVal :=
  snapshot

def notPermissibleSet : PyErr :=
  PyErr.typeError ("Not permissible to set values on object")

def constantObjectSetimmediatevalue (snapshot : ConstVal) (_w : WriteInput) :
    ConstVal × Option PyErr :=
  (snapshot, some notPermissibleSet)

def constantObjectValueSet (snapshot : ConstVal) (_w : WriteInput) :
    ConstVal × Option PyErr :=
  (snapshot, some notPermissibleSet)

/- Non-hierarchy objects for the deferred-write operator claim: the
behaviour of the value property setter differs by class.  ModifiableObject
(and its subclasses) forward to cocotb.scheduler.save_write; the
NonHierarchyObject base and ConstantObject raise TypeError. -/

inductive NHKind where
  | modifiableObj
  | constantObj
  | baseObj
  deriving DecidableEq, Repr

structure NHObj where
  handle : Nat
  kind : NHKind
  deriving DecidableEq, Repr

/- The scheduler write buffer: the sequence of save_write(signal, value)
calls handed to the external scheduler collaborator. -/

abbrev SchedLog := List (Nat × PyVal)

/- The value property setter dispatch (handle.py 387-389 base raise,
683-689 ModifiableObject save_write; ConstantObject inherits the base
setter). -/

def valueSetNH (s : NHObj) (v : PyVal) (sched : SchedLog) : Except PyErr SchedLog :=
  match s.kind with
  | NHKind.modifiableObj => Except.ok (sched ++ [(s.handle, v)])
  | NHKind.constantObj => Except.error notPermissibleSet
  | NHKind.baseObj => Except.error notPermissibleSet

/- The _AssignmentResult sentinel (handle.py 356-371). -/

structure AssignmentResult where
  signal : NHObj
  value : PyVal
  deriving DecidableEq, Repr

/- _AssignmentResult.__bool__ unconditionally raises TypeError. -/

def boolCompareErr : PyErr :=
  PyErr.typeError ("Attempted to use a cocotb delayed write " ++
    "as if it were a numeric comparison")

def assignmentResultBool (_r : AssignmentResult) : Except PyErr Bool :=
  Except.error boolCompareErr

/- NonHierarchyObject.__le__ (handle.py 391-398): assigns self.value = value
and returns an _AssignmentResult; an exception from the setter
propagates. -/

def leNH (s : NHObj) (v : PyVal) (sched : SchedLog) :
    Except PyErr (SchedLog × AssignmentResult) :=
  match valueSetNH s v sched with
  | Except.error e => Except.error e
  | Except.ok sched2 => Except.ok (sched2, AssignmentResult.mk s v)

/- Concrete designs used to evaluate the models on explicit inputs. -/

/- A design with a single non-constant MODULE handle and no children. -/

def d0 : Design :=
  Design.mk (fun _ => MODULE) (fun _ => false) (fun _ => "h1") (fun _ _ => none)
    (fun _ _ => none) (fun _ => []) (fun _ => 0) (fun _ => 0) (fun _ => "")
    (fun _ => "0")

def proxy1 : Proxy :=
  Proxy.mk 1 PClass.HierarchyObject "h1" "h1" none

/- Two successive attribute lookups of the nonexistent name x on a scope of
d0, threading the state of the first into the second. -/

def c2run1 : AttrOutcome :=
  getattrH d0 1 "h1" "h1" "x" emptyHierState [] 0

def c2run2 : AttrOutcome :=
  getattrH d0 1 "h1" "h1" "x" c2run1.st c2run1.cache c2run1.queries

/- The array of the directional-access property: declared range (7, 0),
eight elements, native index i holding value 17 - i (so index 7 holds 10
and index 0 holds 17). -/

def exampleArr : ValArray :=
  ValArray.mk 7 0 8 (fun i => if 0 ≤ i ∧ i ≤ 7 then some (17 - i) else none)

/- A design whose handle 5 is a constant with the unmapped type tag 42. -/

def dConst : Design :=
  Design.mk (fun _ => 42) (fun _ => true) (fun _ => "c") (fun _ _ => none)
    (fun _ _ => none) (fun _ => []) (fun _ => 5) (fun _ => 0) (fun _ => "")
    (fun _ => "101")

def constProxy : Proxy :=
  Proxy.mk 5 PClass.ConstantObject "c" "top.c" (some (ConstVal.cbin "101"))

/- A design whose root handle 0 has children 1, 2, 3; child 2 is
non-constant with the unmapped type tag 42, the others are modules. -/

def dMix : Design :=
  Design.mk (fun h => if h == 2 then 42 else MODULE) (fun _ => false)
    (fun h => if h == 1 then "a" else if h == 2 then "b" else "c") (fun _ _ => none)
    (fun _ _ => none) (fun h => if h == 0 then [1, 2, 3] else []) (fun _ => 0)
    (fun _ => 0) (fun _ => "") (fun _ => "0")

def proxyA : Proxy :=
  Proxy.mk 1 PClass.HierarchyObject "a" "top.a" none

def proxyC : Proxy :=
  Proxy.mk 3 PClass.HierarchyObject "c" "top.c" none

/- Helper lemmas. -/

/- Every successful factory call leaves its proxy registered in the returned
cache under its handle. -/

theorem simHandle_mem_cache {d : Design} {h : Nat} {p : Option String} {c c2 : Cache}
    {obj : Proxy} (hok : SimHandle d h p c = Except.ok (obj, c2)) :
    List.lookup h c2 = some obj := by
  unfold SimHandle at hok
  cases hm : List.lookup h c with
  | some o =>
    rw [hm] at hok
    simp only [Except.ok.injEq, Prod.mk.injEq] at hok
    rw [← hok.2, hm, hok.1]
  | none =>
    rw [hm] at hok
    dsimp only at hok
    split at hok
    · simp only [Except.ok.injEq, Prod.mk.injEq] at hok
      rw [← hok.2, ← hok.1]
      simp [List.lookup]
    · split at hok
      · exact absurd hok (by simp)
      · simp only [Except.ok.injEq, Prod.mk.injEq] at hok
        rw [← hok.2, ← hok.1]
        simp [List.lookup]

/- The descending range walk enumerates left, left - 1, ... -/

theorem rangeIterDownAux_eq (n : Nat) : ∀ left : Int,
    rangeIterDownAux n left = (List.range n).map (fun k : Nat => left - (k : Int)) := by
  induction n with
  | zero => intro left; simp [rangeIterDownAux]
  | succ m ih =>
    intro left
    show left :: rangeIterDownAux m (left - 1) = _
    rw [ih (left - 1), List.range_succ_eq_map, List.map_cons, List.map_map]
    refine List.cons_eq_cons.mpr ⟨by simp, List.map_congr_left (fun k _ => ?_)⟩
    simp only [Function.comp_apply]
    push_cast
    ring

/- The ascending range walk enumerates left, left + 1, ... -/

theorem rangeIterUpAux_eq (n : Nat) : ∀ left : Int,
    rangeIterUpAux n left = (List.range n).map (fun k : Nat => left + (k : Int)) := by
  induction n with
  | zero => intro left; simp [rangeIterUpAux]
  | succ m ih =>
    intro left
    show left :: rangeIterUpAux m (left + 1) = _
    rw [ih (left + 1), List.range_succ_eq_map, List.map_cons, List.map_map]
    refine List.cons_eq_cons.mpr ⟨by simp, List.map_congr_left (fun k _ => ?_)⟩
    simp only [Function.comp_apply]
    push_cast
    ring

/- When every visited index has an element, the bulk-read loop returns the
element values in visit order. -/

theorem getAllValsGo_all_some (a : ValArray) : ∀ l : List Int,
    (∀ i ∈ l, (a.elemVal i).isSome = true) →
    getAllValsGo a l = Except.ok (l.map (fun i => (a.elemVal i).getD 0)) := by
  intro l
  induction l with
  | nil => intro _; rfl
  | cons i is ih =>
    intro hall
    have hi := hall i (List.mem_cons_self i is)
    cases hv : a.elemVal i with
    | none => rw [hv] at hi; simp at hi
    | some v =>
      have hrest := ih (fun j hj => hall j (List.mem_cons_of_mem i hj))
      simp only [getAllValsGo, hv, hrest, List.map_cons]
      simp [hv]

/- The reversed fold of the dict branch equals the little-endian closed
form. -/

theorem packNum_eq_packLE (values : List Int) (bits : Nat) :
    packNum values bits = packLE values bits := by
  unfold packNum
  rw [List.foldl_reverse]
  induction values with
  | nil => rfl
  | cons v vs ih =>
    simp only [List.foldr_cons, packLE, ih]
    ring

/-- C1: once a handle has been resolved, every later SimHandle call for the
same handle, with any path argument, returns exactly the proxy object the
first call created and registered, with the cache unchanged; on a cache
containing the handle, both the name-lookup route (__getattr__) and the
index-lookup route (__getitem__) return that same registered proxy; and
SimHandleBase.__eq__ makes two proxies equal exactly when their handles
are equal. -/
theorem c1_identity (d : Design) (h : Nat) (p p2 : Option String) (c c2 : Cache)
    (obj : Proxy) (hfirst : SimHandle d h p c = Except.ok (obj, c2)) :
    SimHandle d h p2 c2 = Except.ok (obj, c2)
    ∧ (∀ (sh : Nat) (sn sp nm : String) (st : HierState) (q : Nat),
        List.lookup nm st.subHandles = none →
        pyStartsWithUnderscore nm = false →
        d.getHandleByName sh nm = some h →
        getattrH d sh sn sp nm st c2 q =
          AttrOutcome.mk (GetattrRes.found obj)
            (HierState.mk ((nm, obj) :: st.subHandles) st.invalidSubHandles st.discovered)
            c2 (q + 1))
    ∧ (∀ (sh : Nat) (sf sp : String) (lr : Int × Int) (i : Int) (st : List (Int × Proxy)),
        List.lookup i st = none →
        d.getHandleByIndex sh i = some h →
        getitemIdx d sh sf sp (some lr) i st c2 =
          ItemOutcome.mk (Except.ok obj) ((i, obj) :: st) c2)
    ∧ (∀ a b : Proxy, proxyEq a b = true ↔ a.handle = b.handle) := by
  have hcache : List.lookup h c2 = some obj := simHandle_mem_cache hfirst
  have hAny : ∀ pp : Option String, SimHandle d h pp c2 = Except.ok (obj, c2) := by
    intro pp
    unfold SimHandle
    rw [hcache]
  refine ⟨hAny p2, ?_, ?_, ?_⟩
  · intro sh sn sp nm st q h1 h2 h3
    simp [getattrH, h1, h2, h3, hAny]
  · intro sh sf sp lr i st h1 h2
    simp [getitemIdx, h1, h2, hAny]
  · intro a b
    simp [proxyEq]

/-- C1 witness: in the design d0, handle 1 is first resolved with path None,
and the second call with a different path returns the identical proxy and
leaves the cache unchanged. -/
theorem c1_witness :
    SimHandle d0 1 (some "other.path") [(1, proxy1)] =
      Except.ok (proxy1, [(1, proxy1)]) :=
  (c1_identity d0 1 none (some "other.path") [] [(1, proxy1)] proxy1 rfl).1

/-- C2 counterexample: in design d0 the name x has no native object; two
successive lookups through the public child-lookup interface
(HierarchyObject.__getattr__) both raise AttributeError, but the second
lookup is NOT answered from a negative cache: the native-query counter
reaches 2, one get_handle_by_name call per lookup, refuting the claim
that at most one native query is issued. -/
theorem c2_counterexample :
    c2run1.res = GetattrRes.raised (PyErr.attributeError "h1" "x")
    ∧ c2run2.res = GetattrRes.raised (PyErr.attributeError "h1" "x")
    ∧ c2run2.queries = 2 := by
  refine ⟨by decide, by decide, by decide⟩

/-- C2 amended: for a name with no native object, __getattr__ raises the
no-such-child AttributeError on every call but issues a fresh native
query each time (no negative caching); the peek interface __hasattr__
issues at most one native query - the first call records the name in
_invalid_sub_handles and the second call is answered from that negative
cache with no state change - but reports absence by returning None
rather than raising; the combined _id lookup (peek, then fetch) issues
at most one native query across two calls and raises the no-such-child
AttributeError both times. -/
theorem c2_negative_cache (d : Design) (sh : Nat) (sn sp nm : String) (st : HierState)
    (c : Cache) (q : Nat)
    (h1 : List.lookup nm st.subHandles = none)
    (h2 : st.invalidSubHandles.contains nm = false)
    (h3 : d.getHandleByName sh nm = none)
    (h4 : pyStartsWithUnderscore nm = false)
    (h5 : compatKeys.contains nm = false) :
    hasattrH d sh sp nm st c q =
      HasOutcome.mk HasattrRes.noneRes
        (HierState.mk st.subHandles (nm :: st.invalidSubHandles) st.discovered) c (q + 1)
    ∧ hasattrH d sh sp nm
        (HierState.mk st.subHandles (nm :: st.invalidSubHandles) st.discovered) c (q + 1) =
      HasOutcome.mk HasattrRes.noneRes
        (HierState.mk st.subHandles (nm :: st.invalidSubHandles) st.discovered) c (q + 1)
    ∧ getattrH d sh sn sp nm st c q =
      AttrOutcome.mk (GetattrRes.raised (PyErr.attributeError sn nm)) st c (q + 1)
    ∧ getattrH d sh sn sp nm st c (q + 1) =
      AttrOutcome.mk (GetattrRes.raised (PyErr.attributeError sn nm)) st c (q + 2)
    ∧ idH d sh sn sp nm false st c q =
      AttrOutcome.mk (GetattrRes.raised (PyErr.attributeError sn nm))
        (HierState.mk st.subHandles (nm :: st.invalidSubHandles) st.discovered) c (q + 1)
    ∧ idH d sh sn sp nm false
        (HierState.mk st.subHandles (nm :: st.invalidSubHandles) st.discovered) c (q + 1) =
      AttrOutcome.mk (GetattrRes.raised (PyErr.attributeError sn nm))
        (HierState.mk st.subHandles (nm :: st.invalidSubHandles) st.discovered) c (q + 1) := by
  have h5m : nm ∉ compatKeys := by simpa using h5
  have h2m : nm ∉ st.invalidSubHandles := by simpa using h2
  have hno1 : hasattrH d sh sp nm st c q =
      HasOutcome.mk HasattrRes.noneRes
        (HierState.mk st.subHandles (nm :: st.invalidSubHandles) st.discovered) c (q + 1) := by
    simp [hasattrH, h1, h2m, h3]
  have hno2 : hasattrH d sh sp nm
      (HierState.mk st.subHandles (nm :: st.invalidSubHandles) st.discovered) c (q + 1) =
      HasOutcome.mk HasattrRes.noneRes
        (HierState.mk st.subHandles (nm :: st.invalidSubHandles) st.discovered) c (q + 1) := by
    simp [hasattrH, h1]
  have hga : ∀ (stx : HierState) (qq : Nat), List.lookup nm stx.subHandles = none →
      getattrH d sh sn sp nm stx c qq =
      AttrOutcome.mk (GetattrRes.raised (PyErr.attributeError sn nm)) stx c (qq + 1) := by
    intro stx qq hx
    simp [getattrH, hx, h4, h3, h5m]
  refine ⟨hno1, hno2, hga st q h1, hga st (q + 1) h1, ?_, ?_⟩
  · show idH d sh sn sp nm false st c q = _
    unfold idH
    rw [if_neg (by simp)]
    dsimp only
    rw [hno1]
  · show idH d sh sn sp nm false _ c (q + 1) = _
    unfold idH
    rw [if_neg (by simp)]
    dsimp only
    rw [hno2]

/-- C2 witness for the amended statement: concrete two-call runs on design
d0, scope handle 1, absent name x. -/
theorem c2_witness :
    hasattrH d0 1 "h1" "x" emptyHierState [] 0 =
      HasOutcome.mk HasattrRes.noneRes (HierState.mk [] ["x"] false) [] 1
    ∧ hasattrH d0 1 "h1" "x" (HierState.mk [] ["x"] false) [] 1 =
      HasOutcome.mk HasattrRes.noneRes (HierState.mk [] ["x"] false) [] 1
    ∧ idH d0 1 "h1" "h1" "x" false emptyHierState [] 0 =
      AttrOutcome.mk (GetattrRes.raised (PyErr.attributeError "h1" "x"))
        (HierState.mk [] ["x"] false) [] 1 := by
  have hr := c2_negative_cache d0 1 "h1" "h1" "x" emptyHierState [] 0 rfl rfl rfl rfl rfl
  exact ⟨hr.1, hr.2.1, hr.2.2.2.2.1⟩

/-- C3: the bulk read visits indices in declared direction - left down to
right inclusive when left is greater than right, left up to right
inclusive otherwise - and returns the element values in that visit
order; on the concrete array with declared range (7, 0) and element
values 10..17 at native indices 7..0, the bulk read returns
[10,...,17], and the bulk write of [0,...,7] assigns 0 to native
index 7 and 7 to native index 0. -/
theorem c3_directional_bulk :
    (∀ left right : Int, left > right →
      rangeIter left right =
        (List.range ((left - right).toNat + 1)).map (fun k : Nat => left - (k : Int)))
    ∧ (∀ left right : Int, ¬ left > right →
      rangeIter left right =
        (List.range ((right - left).toNat + 1)).map (fun k : Nat => left + (k : Int)))
    ∧ (∀ a : ValArray, (∀ i ∈ rangeIter a.left a.right, (a.elemVal i).isSome = true) →
      getAllVals a =
        Except.ok ((rangeIter a.left a.right).map (fun i => (a.elemVal i).getD 0)))
    ∧ getAllVals exampleArr = Except.ok [10, 11, 12, 13, 14, 15, 16, 17]
    ∧ setAllVals exampleArr [0, 1, 2, 3, 4, 5, 6, 7] =
        ([(7, 0), (6, 1), (5, 2), (4, 3), (3, 4), (2, 5), (1, 6), (0, 7)], none) := by
  refine ⟨?_, ?_, ?_, by decide, by decide⟩
  · intro left right h
    unfold rangeIter
    rw [if_pos h]
    exact rangeIterDownAux_eq _ left
  · intro left right h
    unfold rangeIter
    rw [if_neg h]
    exact rangeIterUpAux_eq _ left
  · intro a hall
    exact getAllValsGo_all_some a (rangeIter a.left a.right) hall

/-- C3 witness: the general direction and visit-order facts instantiated on
the concrete descending array. -/
theorem c3_witness :
    rangeIter 7 0 =
      (List.range (((7 : Int) - 0).toNat + 1)).map (fun k : Nat => (7 : Int) - (k : Int))
    ∧ getAllVals exampleArr =
      Except.ok ((rangeIter exampleArr.left exampleArr.right).map
        (fun i => (exampleArr.elemVal i).getD 0)) :=
  ⟨c3_directional_bulk.1 7 0 (by decide),
   c3_directional_bulk.2.2.1 exampleArr (by decide)⟩

/-- C4: when the native element count agrees with the declared range, a bulk
write with a list whose length differs from that element count raises
the length-mismatch ValueError and issues no element write at all, and
the write reaches the element-assignment loop only when the lengths are
exactly equal. -/
theorem c4_length_guard (a : ValArray) (v : List Int)
    (hdecl : a.numElems = (rangeIter a.left a.right).length) :
    (v.length ≠ (rangeIter a.left a.right).length →
      setAllVals a v = ([], some (listLenErr v.length a.numElems)))
    ∧ (v.length = (rangeIter a.left a.right).length →
      setAllVals a v = setAllValsGo a (rangeIter a.left a.right) v) := by
  constructor
  · intro hne
    unfold setAllVals
    rw [if_pos (by rw [hdecl]; exact hne)]
  · intro heq
    unfold setAllVals
    rw [if_neg (by rw [hdecl]; simpa using heq)]

/-- C4 witness: on the concrete eight-element array, a three-element write
fails with the length-mismatch error and no writes, and an eight-element
write reaches the assignment loop. -/
theorem c4_witness :
    setAllVals exampleArr [0, 1, 2] = ([], some (listLenErr 3 8))
    ∧ setAllVals exampleArr [0, 1, 2, 3, 4, 5, 6, 7] =
        setAllValsGo exampleArr (rangeIter exampleArr.left exampleArr.right)
          [0, 1, 2, 3, 4, 5, 6, 7] :=
  ⟨(c4_length_guard exampleArr [0, 1, 2] (by decide)).1 (by decide),
   (c4_length_guard exampleArr [0, 1, 2, 3, 4, 5, 6, 7] (by decide)).2 (by decide)⟩

/-- C5: a plain (non-write-intent) value is written with the given value and
deposit code 0; Deposit(x) gives (x, 0); Force(x) gives (x, 1); Freeze
gives the current value of the object, read when the write is issued,
with the override-hold code 1; Release gives (0, 2). -/
theorem c5_set_actions (hdlValue v x : PyVal) :
    checkForSetAction hdlValue (WriteInput.plain v) = (v, 0)
    ∧ checkForSetAction hdlValue (WriteInput.action (SetActionKind.Deposit x)) = (x, 0)
    ∧ checkForSetAction hdlValue (WriteInput.action (SetActionKind.Force x)) = (x, 1)
    ∧ checkForSetAction hdlValue (WriteInput.action SetActionKind.Freeze) = (hdlValue, 1)
    ∧ checkForSetAction hdlValue (WriteInput.action SetActionKind.Release) =
        (PyVal.pint 0, 2) :=
  ⟨rfl, rfl, rfl, rfl, rfl⟩

/-- C6 counterexample: on a 64-bit-wide modifiable object, the plain integer
1 fits the bit width (1 < 2 to the 64) but setimmediatevalue does not
take the fast integer-write path: it issues the composite
set_signal_val_binstr call, because the fast path additionally requires
the object width to be at most 32. -/
theorem c6_counterexample :
    setimmediatevalueM 64 (PyVal.pint 0) (WriteInput.plain (PyVal.pint 1)) =
      Except.ok (NativeCall.setSignalValBinstr 0 1 64)
    ∧ (1 : Int) < 2 ^ 64
    ∧ setimmediatevalueM 64 (PyVal.pint 0) (WriteInput.plain (PyVal.pint 1)) ≠
      Except.ok (NativeCall.setSignalValLong 0 1) := by
  refine ⟨by decide, by decide, by decide⟩

/-- C6 amended: a plain integer below 0x7fffffff written to an object of
width at most 32 is sent through the fast integer-write path
set_signal_val_long; any other plain integer - in particular any
integer, however small, written to an object wider than 32 bits - is
wrapped into a bit-vector of the object width and sent through the
composite set_signal_val_binstr path. -/
theorem c6_int_write_paths (selfLen : Nat) (hv : PyVal) (v : Int) :
    (v < 0x7fffffff → selfLen ≤ 32 →
      setimmediatevalueM selfLen hv (WriteInput.plain (PyVal.pint v)) =
        Except.ok (NativeCall.setSignalValLong 0 v))
    ∧ (¬ (v < 0x7fffffff ∧ selfLen ≤ 32) →
      setimmediatevalueM selfLen hv (WriteInput.plain (PyVal.pint v)) =
        Except.ok (NativeCall.setSignalValBinstr 0 v selfLen)) := by
  constructor
  · intro hvlt hlen
    unfold setimmediatevalueM checkForSetAction
    dsimp only
    rw [if_pos ⟨hvlt, hlen⟩]
  · intro hnot
    unfold setimmediatevalueM checkForSetAction
    dsimp only
    rw [if_neg hnot]

/-- C6 witness: 200 on an 8-bit object goes through the fast path; 5 on a
64-bit object goes through the composite path. -/
theorem c6_witness :
    setimmediatevalueM 8 (PyVal.pint 0) (WriteInput.plain (PyVal.pint 200)) =
      Except.ok (NativeCall.setSignalValLong 0 200)
    ∧ setimmediatevalueM 64 (PyVal.pint 0) (WriteInput.plain (PyVal.pint 5)) =
      Except.ok (NativeCall.setSignalValBinstr 0 5 64) :=
  ⟨(c6_int_write_paths 8 (PyVal.pint 0) 200).1 (by decide) (by decide),
   (c6_int_write_paths 64 (PyVal.pint 0) 5).2 (by decide)⟩

/-- C7 counterexample: writing the mapping with values [1, 0] and 4 bits per
element to an 8-bit object produces the composite value 1, i.e. element
0 lands in the LEAST significant 4 bits; the claimed
most-significant-element-first packing would instead produce 16. -/
theorem c7_counterexample :
    setimmediatevalueM 8 (PyVal.pint 0) (WriteInput.plain (PyVal.pdict [1, 0] 4)) =
      Except.ok (NativeCall.setSignalValBinstr 0 1 8)
    ∧ packMostSignificantFirst [1, 0] 4 = 16
    ∧ (1 : Int) ≠ 16 := by
  refine ⟨by decide, by decide, by decide⟩

/-- C7 amended: the values/bits mapping is packed
least-significant-element-first - input element at position i occupies
bits i*b and upward, so position 0 occupies the least significant b
bits of the composite bit-vector - and when the total packed width
differs from the object width the write fails with the
unsupported-assignment TypeError. -/
theorem c7_dict_packing (selfLen bits : Nat) (hv : PyVal) (values : List Int) :
    (values.length * bits = selfLen →
      setimmediatevalueM selfLen hv (WriteInput.plain (PyVal.pdict values bits)) =
        Except.ok (NativeCall.setSignalValBinstr 0 (packLE values bits) selfLen))
    ∧ (values.length * bits ≠ selfLen →
      setimmediatevalueM selfLen hv (WriteInput.plain (PyVal.pdict values bits)) =
        Except.error (dictLenErr values bits selfLen))
    ∧ (∀ (v : Int) (vs : List Int),
        packLE (v :: vs) bits = v + 2 ^ bits * packLE vs bits) := by
  refine ⟨?_, ?_, fun v vs => rfl⟩
  · intro heq
    unfold setimmediatevalueM checkForSetAction
    dsimp only
    rw [if_neg (fun hcon => hcon heq), packNum_eq_packLE]
  · intro hne
    unfold setimmediatevalueM checkForSetAction
    dsimp only
    rw [if_pos hne]

/-- C7 witness: packing [3, 2, 1] with 4 bits per element into a 12-bit
object, and the mismatch error for the same mapping on an 8-bit
object. -/
theorem c7_witness :
    setimmediatevalueM 12 (PyVal.pint 0) (WriteInput.plain (PyVal.pdict [3, 2, 1] 4)) =
      Except.ok (NativeCall.setSignalValBinstr 0 (packLE [3, 2, 1] 4) 12)
    ∧ setimmediatevalueM 8 (PyVal.pint 0) (WriteInput.plain (PyVal.pdict [3, 2, 1] 4)) =
      Except.error (dictLenErr [3, 2, 1] 4 8) :=
  ⟨(c7_dict_packing 12 4 (PyVal.pint 0) [3, 2, 1]).1 (by decide),
   (c7_dict_packing 8 4 (PyVal.pint 0) [3, 2, 1]).2.1 (by decide)⟩

/-- C8: reading a Constant Snapshot returns the value captured at
construction; both the immediate write and the deferred value-property
write raise the read-only TypeError and leave the stored snapshot
unchanged, so a read after a failed write still returns the original
snapshot. -/
theorem c8_constant_readonly (snapshot : ConstVal) (w : WriteInput) (d : Design)
    (h t : Nat) :
    constantObjectValueGet snapshot = snapshot
    ∧ constantObjectSetimmediatevalue snapshot w = (snapshot, some notPermissibleSet)
    ∧ constantObjectValueSet snapshot w = (snapshot, some notPermissibleSet)
    ∧ constantObjectValueGet (constantObjectSetimmediatevalue snapshot w).1 = snapshot
    ∧ constantObjectValueGet (constantObjectValueSet snapshot w).1 = snapshot
    ∧ constantObjectValueGet (constantValueOf d h t) = constantValueOf d h t :=
  ⟨rfl, rfl, rfl, rfl, rfl, rfl⟩

/-- C9 counterexample: handle 5 of design dConst carries the type tag 42,
which has no _type2cls proxy mapping, yet direct resolution through the
factory does NOT fail: the handle is constant, so the factory resolves
it as a ConstantObject before the mapping is consulted. -/
theorem c9_counterexample :
    type2cls (dConst.getType 5) = none
    ∧ dConst.getConst 5 = true
    ∧ SimHandle dConst 5 (some "top.c") [] =
        Except.ok (constProxy, [(5, constProxy)]) := by
  refine ⟨by decide, by decide, by decide⟩

/-- C9 amended: for a NON-CONSTANT handle whose type tag has no registered
proxy mapping, direct resolution through the factory fails with the
unknown-handle-type TestError carrying the tag and the path, and the
error propagates to the caller; a constant handle with an unmapped tag
is instead resolved as a Constant Snapshot; during a full discovery of
the scope of design dMix, whose middle child has an unmapped tag, that
child is skipped and discovery completes, registering the remaining
two children and setting the discovered flag. -/
theorem c9_unknown_handle_type (d : Design) (h : Nat) (path : Option String)
    (cache : Cache)
    (hc : List.lookup h cache = none)
    (hconst : d.getConst h = false)
    (hmap : type2cls (d.getType h) = none) :
    SimHandle d h path cache = Except.error (PyErr.testError (d.getType h) path)
    ∧ discoverAll dMix 0 "top" emptyHierState [] =
        (HierState.mk [("c", proxyC), ("a", proxyA)] [] true, [(3, proxyC), (1, proxyA)]) := by
  constructor
  · unfold SimHandle
    rw [hc]
    dsimp only
    rw [hconst]
    simp only [Bool.false_and, Bool.false_eq_true, if_false]
    rw [hmap]
  · decide

/-- C9 witness: the non-constant child handle 2 of design dMix has the
unmapped tag 42 and its direct resolution raises the TestError carrying
the tag and the path. -/
theorem c9_witness :
    SimHandle dMix 2 (some "top.b") [] =
      Except.error (PyErr.testError 42 (some "top.b")) :=
  (c9_unknown_handle_type dMix 2 (some "top.b") [] rfl rfl (by decide)).1

/-- C10: the overloaded comparison s <= v performs exactly the deferred
write that assigning the value property performs (including raising the
same error when that assignment raises) and, whenever the write
succeeds, returns the _AssignmentResult sentinel; converting the
sentinel to a boolean always raises TypeError; in particular, on a
modifiable object, s <= v hands (s, v) to the scheduler write buffer
and returns the sentinel. -/
theorem c10_le_operator (s : NHObj) (v : PyVal) (sched : SchedLog) :
    leNH s v sched =
      Except.map (fun sched2 => (sched2, AssignmentResult.mk s v)) (valueSetNH s v sched)
    ∧ (∀ r : AssignmentResult, assignmentResultBool r = Except.error boolCompareErr)
    ∧ (s.kind = NHKind.modifiableObj →
        leNH s v sched = Except.ok (sched ++ [(s.handle, v)], AssignmentResult.mk s v)) := by
  refine ⟨?_, fun r => rfl, ?_⟩
  · cases hk : s.kind <;> simp [leNH, valueSetNH, hk, Except.map]
  · intro hk
    simp [leNH, valueSetNH, hk]

/-- C10 witness: the operator on a concrete modifiable object records the
deferred write and returns the sentinel. -/
theorem c10_witness :
    leNH (NHObj.mk 7 NHKind.modifiableObj) (PyVal.pint 3) [] =
      Except.ok ([(7, PyVal.pint 3)],
        AssignmentResult.mk (NHObj.mk 7 NHKind.modifiableObj) (PyVal.pint 3)) :=
  (c10_le_operator (NHObj.mk 7 NHKind.modifiableObj) (PyVal.pint 3) []).2.2 rfl

end CocotbHandle
